import Mathlib

/-!
Shallow embedding of the EC2024 arts-faculty dashboard (`src/app.py`).

The script loads one remote CSV into a pandas DataFrame (`load_data`,
wrapped in `st.cache_data`), and — when the frame is non-empty — renders
seven charts: four built from `Series.value_counts` (horizontal bar, two
pies, vertical bar) and three `px.histogram` calls on raw columns.  An
empty frame instead produces a single `st.warning` notice.

Modelling choices, all taken from the source:
* a cell is `Option String`; `none` models a pandas `NaN` (missing value);
* the network fetch plus CSV parse is an `Except String Csv` input to
  `load_data`, mirroring the `try/except` around `pd.read_csv`;
* `pd.read_csv` keeps header names verbatim (the source applies no
  stripping — it addresses `Bachelor  Academic Year in EU` with its double
  internal space);
* `Series.value_counts()` drops missing values (`dropna=True`) and sorts
  the (value, count) pairs by non-increasing count (`sort=True`), the
  pandas defaults, which are what the source relies on;
* column access `df[c]` raises a `KeyError` naming `c` when the label is
  absent; `px.histogram` with a missing `x` raises a `ValueError` that also
  names the received column.
-/

/-- A CSV cell as pandas sees it: `none` models a missing value (NaN). -/
abbrev Cell := Option String

deriving instance DecidableEq for Except

/-- Modelled from the spec: the claimed normalization of a header name,
"column names equal the source header names with surrounding whitespace
removed".  Defined over the character list so it evaluates by kernel
reduction; used only to compare the claimed behavior with `load_data`. -/
def trimSpec (s : String) : String :=
  String.mk
    (((s.data.dropWhile (fun ch => ch == ' ')).reverse.dropWhile
      (fun ch => ch == ' ')).reverse)

/-- A fetched and parsed CSV document: header line plus data records. -/
structure Csv where
  header : List String
  records : List (List Cell)
deriving DecidableEq, Repr

/-- The in-memory table `pd.read_csv` produces: column labels plus rows. -/
structure Table where
  cols : List String
  rows : List (List Cell)
deriving DecidableEq, Repr

/-- pandas `DataFrame.empty`: true when either axis has length zero. -/
def Table.empty (t : Table) : Bool :=
  t.rows.isEmpty || t.cols.isEmpty

/-- `pd.read_csv` applied to an already-fetched, well-formed document:
header names become the column labels verbatim, records become the rows. -/
def read_csv (csv : Csv) : Table :=
  { cols := csv.header, rows := csv.records }

/-- What a call to `load_data` produces: the returned table together with
the diagnostic messages emitted through `st.error` (none on success). -/
structure LoadOutcome where
  table : Table
  errors : List String
deriving DecidableEq, Repr

/-- `load_data` (src/app.py lines 10-20): on a successful fetch-and-parse
return the table; on any exception emit one `st.error` diagnostic and
return the empty `pd.DataFrame()` (zero rows, zero columns). -/
def load_data (fetched : Except String Csv) : LoadOutcome :=
  match fetched with
  | .ok csv => { table := read_csv csv, errors := [] }
  | .error e =>
      { table := { cols := [], rows := [] }
        errors := ["An error occurred while loading data: " ++ e] }

/-- The message of the `KeyError` pandas raises for a missing column. -/
def keyError (c : String) : String :=
  "KeyError: " ++ c

/-- `df[c]`: the cells of column `c` in row order, or a `KeyError` naming
the column when the label is absent. -/
def Table.col (t : Table) (c : String) : Except String (List Cell) :=
  if c ∈ t.cols then
    .ok (t.rows.map (fun r => r.getD (t.cols.findIdx (· == c)) none))
  else
    .error (keyError c)

/-- Helper for `dedupFirst`: keep each value not yet seen, in order. -/
def dedupFirstAux (seen : List String) : List String → List String
  | [] => []
  | v :: rest =>
      if v ∈ seen then dedupFirstAux seen rest
      else v :: dedupFirstAux (v :: seen) rest

/-- Distinct values in first-appearance order: the order in which
`value_counts` discovers the distinct keys before sorting by count. -/
def dedupFirst (l : List String) : List String :=
  dedupFirstAux [] l

/-- The non-null values of a column; `value_counts` drops NaN
(`dropna=True`, the pandas default the source uses). -/
def presentVals (cells : List Cell) : List String :=
  cells.filterMap id

/-- The (value, count) pairs of `value_counts` before its descending sort:
each distinct non-null value paired with its number of occurrences. -/
def rawCounts (cells : List Cell) : List (String × Nat) :=
  (dedupFirst (presentVals cells)).map (fun v => (v, (presentVals cells).count v))

/-- Insertion into a list of pairs kept in non-increasing count order. -/
def insertDesc (p : String × Nat) : List (String × Nat) → List (String × Nat)
  | [] => [p]
  | q :: rest => if q.2 < p.2 then p :: q :: rest else q :: insertDesc p rest

/-- Sort pairs by non-increasing count (`value_counts` sorts descending by
count, `sort=True` being the pandas default). -/
def sortDesc : List (String × Nat) → List (String × Nat)
  | [] => []
  | p :: rest => insertDesc p (sortDesc rest)

/-- `Series.value_counts()` on the cells of one column. -/
def value_counts (cells : List Cell) : List (String × Nat) :=
  sortDesc (rawCounts cells)

/-- `df[c].value_counts()` as called at src/app.py lines 45, 99, 136 and
156 — the `count_by` aggregation of the specification. -/
def count_by (t : Table) (c : String) : Except String (List (String × Nat)) :=
  (t.col c).map value_counts

/-- A constructed plotly figure, keeping the data that parametrises it.
Cosmetic options (colors, templates, hole fractions) carry no invariants
and are omitted. -/
inductive Figure where
  | bar (title : String) (pairs : List (String × Nat))
  | pie (title : String) (pairs : List (String × Nat))
  | histogram (title : String) (cells : List Cell)
deriving DecidableEq, Repr

/-- One output emitted to the streamlit presentation surface. -/
inductive Event where
  | preview (t : Table)
  | figure (f : Figure)
  | warning (msg : String)
  | info (msg : String)
deriving DecidableEq, Repr

/-- Whether an event is a rendered chart. -/
def Event.isFigure : Event → Bool
  | .figure _ => true
  | _ => false

/-- Whether an event is an `st.warning` notice. -/
def Event.isWarning : Event → Bool
  | .warning _ => true
  | _ => false

/-- A chart block built from `value_counts` and `px.bar`
(src/app.py charts 1 and 7). -/
def chartBar (t : Table) (c title : String) : Except String Event :=
  (count_by t c).map (fun pairs => Event.figure (Figure.bar title pairs))

/-- A chart block built from `value_counts` and `px.pie`
(src/app.py charts 4 and 6). -/
def chartPie (t : Table) (c title : String) : Except String Event :=
  (count_by t c).map (fun pairs => Event.figure (Figure.pie title pairs))

/-- A chart block built from `px.histogram` on the raw column
(src/app.py charts 2, 3 and 5); a missing `x` column raises a `ValueError`
naming the column, modelled here through `Table.col`. -/
def chartHistogram (t : Table) (c title : String) : Except String Event :=
  (t.col c).map (fun cells => Event.figure (Figure.histogram title cells))

/-- The `st.warning` text at src/app.py line 172. -/
def loadFailedWarning : String :=
  "The dashboard cannot be displayed because data loading failed."

/-- The sidebar usage note (src/app.py lines 175-181), presentation only. -/
def sidebarInfo : String :=
  "How to Run This App"

/-- The dashboard body, src/app.py lines 28-181: when the table is
non-empty, show the data preview and the seven chart blocks in order (an
exception from any block aborts the script); when it is empty, emit the
single cannot-proceed warning.  The sidebar note renders in both cases. -/
def display (t : Table) : Except String (List Event) :=
  if t.empty then
    Except.ok [Event.warning loadFailedWarning, Event.info sidebarInfo]
  else do
    let e1 ← chartBar t "Arts Program" "Distribution of Arts Programs"
    let e2 ← chartHistogram t "Bachelor  Academic Year in EU"
      "Distribution of Academic Years in Arts Faculty"
    let e3 ← chartHistogram t "H.S.C or Equivalent study medium"
      "Distribution of HSC Study Medium"
    let e4 ← chartPie t "Did you ever attend a Coaching center?"
      "Did students attend a Coaching Center?"
    let e5 ← chartHistogram t "Classes are mostly"
      "Distribution of Class Modality"
    let e6 ← chartPie t "Gender" "Gender Distribution in Arts Faculty"
    let e7 ← chartBar t "Gender" "Gender Distribution in Arts Faculty"
    Except.ok [Event.preview t, e1, e2, e3, e4, e5, e6, e7,
      Event.info sidebarInfo]

/-- A streamlit session: the remote world (what fetching each URL yields,
fixed for the lifetime of the session) and the `st.cache_data` store
keyed by URL. -/
structure Session where
  fetch : String → Except String Csv
  cache : List (String × Table)

/-- `load_data` as wrapped by `st.cache_data` (src/app.py line 9): a hit
returns the memoized table unchanged; a miss runs `load_data` and stores
its table under the URL. -/
def cachedLoad (s : Session) (url : String) : Table × Session :=
  match s.cache.lookup url with
  | some t => (t, s)
  | none =>
      let t := (load_data (s.fetch url)).table
      (t, { s with cache := (url, t) :: s.cache })

/-- The mutable surface a chart block touches: the source table, the
(value, count) pairs handed to the renderer, and the outputs emitted so
far. -/
structure AppState where
  table : Table
  pairs : List (String × Nat)
  outputs : List Event
deriving DecidableEq, Repr

/-- `px.bar` on a frame of (value, count) pairs: constructs a figure. -/
def px_bar (pairs : List (String × Nat)) (title : String) : Figure :=
  Figure.bar title pairs

/-- `px.pie` on a frame of (value, count) pairs: constructs a figure. -/
def px_pie (pairs : List (String × Nat)) (title : String) : Figure :=
  Figure.pie title pairs

/-- `st.plotly_chart`: appends the figure to the emitted outputs. -/
def st_plotly_chart (s : AppState) (f : Figure) : AppState :=
  { s with outputs := s.outputs ++ [Event.figure f] }

/-- A bar-chart render step (src/app.py lines 48-58 and 159-168):
construct the figure from the pairs and emit it. -/
def render_bar (s : AppState) (title : String) : AppState :=
  st_plotly_chart s (px_bar s.pairs title)

/-- A pie-chart render step (src/app.py lines 102-111 and 139-148):
construct the figure from the pairs and emit it. -/
def render_pie (s : AppState) (title : String) : AppState :=
  st_plotly_chart s (px_pie s.pairs title)

/-- The three-row example table of the specification: g = F, F, M. -/
def t8 : Table :=
  { cols := ["g"], rows := [[some "F"], [some "F"], [some "M"]] }

/-- A CSV whose single header name carries surrounding whitespace. -/
def csvHeaderWs : Csv :=
  { header := [" Gender "], records := [[some "F"]] }

/-- A one-row table whose only cell is missing (NaN). -/
def tMissingCell : Table :=
  { cols := ["g"], rows := [[none]] }

/-- A non-empty table that lacks the configured column `Arts Program`. -/
def tNoProgram : Table :=
  { cols := ["Gender"], rows := [[some "F"]] }

/-! ## Helper lemmas about the aggregation -/

theorem mem_dedupFirstAux {v : String} :
    ∀ (l seen : List String), v ∈ dedupFirstAux seen l ↔ v ∈ l ∧ v ∉ seen := by
  intro l
  induction l with
  | nil =>
      intro seen
      simp [dedupFirstAux]
  | cons w rest ih =>
      intro seen
      by_cases hw : w ∈ seen
      · rw [show dedupFirstAux seen (w :: rest) = dedupFirstAux seen rest by
          simp [dedupFirstAux, hw]]
        rw [ih seen]
        constructor
        · exact fun hp => ⟨List.mem_cons_of_mem w hp.1, hp.2⟩
        · rintro ⟨h1, h2⟩
          rcases List.mem_cons.mp h1 with h | h
          · exact absurd (h ▸ hw) h2
          · exact ⟨h, h2⟩
      · rw [show dedupFirstAux seen (w :: rest) =
            w :: dedupFirstAux (w :: seen) rest by simp [dedupFirstAux, hw]]
        by_cases hv : v = w
        · subst hv
          simp [hw]
        · simp only [List.mem_cons, hv, false_or]
          rw [ih (w :: seen)]
          simp [List.mem_cons, hv]

theorem nodup_dedupFirstAux : ∀ (l seen : List String), (dedupFirstAux seen l).Nodup := by
  intro l
  induction l with
  | nil =>
      intro seen
      simp [dedupFirstAux]
  | cons w rest ih =>
      intro seen
      by_cases hw : w ∈ seen
      · rw [show dedupFirstAux seen (w :: rest) = dedupFirstAux seen rest by
          simp [dedupFirstAux, hw]]
        exact ih seen
      · rw [show dedupFirstAux seen (w :: rest) =
            w :: dedupFirstAux (w :: seen) rest by simp [dedupFirstAux, hw]]
        refine List.nodup_cons.mpr ⟨?_, ih (w :: seen)⟩
        intro hmem
        exact ((mem_dedupFirstAux rest (w :: seen)).mp hmem).2 (List.mem_cons_self w seen)

theorem mem_dedupFirst {v : String} {l : List String} :
    v ∈ dedupFirst l ↔ v ∈ l := by
  unfold dedupFirst
  rw [mem_dedupFirstAux l []]
  simp

theorem nodup_dedupFirst (l : List String) : (dedupFirst l).Nodup :=
  nodup_dedupFirstAux l []

theorem dedupFirst_perm_dedup (l : List String) :
    List.Perm (dedupFirst l) l.dedup :=
  (List.perm_ext_iff_of_nodup (nodup_dedupFirst l) l.nodup_dedup).mpr
    (fun a => by rw [mem_dedupFirst, List.mem_dedup])

theorem insertDesc_perm (p : String × Nat) (l : List (String × Nat)) :
    List.Perm (insertDesc p l) (p :: l) := by
  induction l with
  | nil => exact List.Perm.refl _
  | cons q rest ih =>
      simp only [insertDesc]
      by_cases hlt : q.2 < p.2
      · rw [if_pos hlt]
      · rw [if_neg hlt]
        exact (List.Perm.cons q ih).trans (List.Perm.swap p q rest)

theorem sortDesc_perm (l : List (String × Nat)) :
    List.Perm (sortDesc l) l := by
  induction l with
  | nil => exact List.Perm.refl _
  | cons p rest ih =>
      exact (insertDesc_perm p (sortDesc rest)).trans (List.Perm.cons p ih)

theorem pairwise_insertDesc {p : String × Nat} {l : List (String × Nat)}
    (hl : l.Pairwise (fun a b => b.2 ≤ a.2)) :
    (insertDesc p l).Pairwise (fun a b => b.2 ≤ a.2) := by
  induction l with
  | nil => simp [insertDesc]
  | cons q rest ih =>
      rcases List.pairwise_cons.mp hl with ⟨hq, hrest⟩
      simp only [insertDesc]
      by_cases hlt : q.2 < p.2
      · rw [if_pos hlt]
        refine List.pairwise_cons.mpr ⟨?_, hl⟩
        intro b hb
        rcases List.mem_cons.mp hb with h | h
        · exact h ▸ Nat.le_of_lt hlt
        · exact Nat.le_trans (hq b h) (Nat.le_of_lt hlt)
      · rw [if_neg hlt]
        refine List.pairwise_cons.mpr ⟨?_, ih hrest⟩
        intro b hb
        rcases List.mem_cons.mp ((insertDesc_perm p rest).mem_iff.mp hb) with h | h
        · exact h ▸ Nat.le_of_not_lt hlt
        · exact hq b h

theorem sortDesc_pairwise (l : List (String × Nat)) :
    (sortDesc l).Pairwise (fun a b => b.2 ≤ a.2) := by
  induction l with
  | nil => simp [sortDesc]
  | cons p rest ih => exact pairwise_insertDesc ih

theorem pairwise_head_max {l : List (String × Nat)}
    (hl : l.Pairwise (fun a b => b.2 ≤ a.2)) :
    ∀ q ∈ l, q.2 ≤ (l.headD ("", 0)).2 := by
  cases l with
  | nil =>
      intro q hq
      cases hq
  | cons a rest =>
      intro q hq
      rcases List.mem_cons.mp hq with h | h
      · exact h ▸ Nat.le_refl _
      · exact (List.pairwise_cons.mp hl).1 q h

theorem sum_rawCounts (cells : List Cell) :
    ((rawCounts cells).map Prod.snd).sum = (presentVals cells).length := by
  unfold rawCounts
  rw [List.map_map]
  have h1 : List.Perm
      ((dedupFirst (presentVals cells)).map
        (Prod.snd ∘ fun v => (v, (presentVals cells).count v)))
      ((presentVals cells).dedup.map
        (Prod.snd ∘ fun v => (v, (presentVals cells).count v))) :=
    (dedupFirst_perm_dedup _).map _
  rw [h1.sum_eq]
  exact List.sum_map_count_dedup_eq_length _

theorem sum_value_counts (cells : List Cell) :
    ((value_counts cells).map Prod.snd).sum = (presentVals cells).length := by
  unfold value_counts
  rw [(List.Perm.map Prod.snd (sortDesc_perm (rawCounts cells))).sum_eq]
  exact sum_rawCounts cells

theorem presentVals_length_of_all_some {cells : List Cell}
    (h : ∀ x ∈ cells, x.isSome) :
    (presentVals cells).length = cells.length := by
  induction cells with
  | nil => rfl
  | cons x rest ih =>
      cases x with
      | none => exact absurd (h none (List.mem_cons_self _ _)) (by simp)
      | some v =>
          have hv : presentVals (some v :: rest) = v :: presentVals rest := rfl
          rw [hv, List.length_cons, List.length_cons,
            ih (fun y hy => h y (List.mem_cons_of_mem _ hy))]

/-! ## Claim theorems -/

/-- C1 counterexample: `load_data` keeps a header name verbatim, so for a
CSV whose header carries surrounding whitespace the loaded column names
differ from the trimmed header names the claim requires. -/
theorem load_keeps_header_whitespace :
    (load_data (Except.ok csvHeaderWs)).table.cols = [" Gender "] ∧
    (load_data (Except.ok csvHeaderWs)).table.cols ≠ csvHeaderWs.header.map trimSpec := by
  decide

/-- C1 (amended): for every valid CSV, `load_data` returns a table whose
column names equal the source header names verbatim (no whitespace
trimming is applied), and whose row count equals the number of data rows
in the CSV. -/
theorem load_header_verbatim (csv : Csv) :
    (load_data (Except.ok csv)).table.cols = csv.header ∧
    (load_data (Except.ok csv)).table.rows.length = csv.records.length :=
  ⟨rfl, rfl⟩

/-- C2 counterexample: `value_counts` drops missing values, so on a table
whose only cell in column `g` is missing the counts sum to 0 while the
table has 1 row — the frequency counts do not partition the rows. -/
theorem count_by_nan_dropped :
    "g" ∈ tMissingCell.cols ∧
    count_by tMissingCell "g" = Except.ok [] ∧
    ¬ ((([] : List (String × Nat)).map Prod.snd).sum = tMissingCell.rows.length) := by
  decide

/-- C2 (amended): for every table and every column present in it, the sum
of the counts returned by `count_by` equals the number of rows whose value
in that column is present (non-missing); in particular it equals the row
count of the table whenever the column has no missing value. -/
theorem count_by_sum_present (t : Table) (c : String) (hc : c ∈ t.cols) :
    ∃ cells pairs, t.col c = Except.ok cells ∧ count_by t c = Except.ok pairs ∧
      cells.length = t.rows.length ∧
      (pairs.map Prod.snd).sum = (presentVals cells).length ∧
      ((∀ x ∈ cells, x.isSome) → (pairs.map Prod.snd).sum = t.rows.length) := by
  have hcol : t.col c =
      Except.ok (t.rows.map (fun r => r.getD (t.cols.findIdx (· == c)) none)) := by
    unfold Table.col
    rw [if_pos hc]
  refine ⟨_, value_counts (t.rows.map (fun r => r.getD (t.cols.findIdx (· == c)) none)),
    hcol, ?_, ?_, ?_, ?_⟩
  · unfold count_by
    rw [hcol]
    rfl
  · exact List.length_map _ _
  · exact sum_value_counts _
  · intro hall
    rw [sum_value_counts _, presentVals_length_of_all_some hall, List.length_map]

/-- Witness for C2 at the concrete three-row table. -/
theorem count_by_sum_present_witness :
    ∃ cells pairs, t8.col "g" = Except.ok cells ∧ count_by t8 "g" = Except.ok pairs ∧
      cells.length = t8.rows.length ∧
      (pairs.map Prod.snd).sum = (presentVals cells).length ∧
      ((∀ x ∈ cells, x.isSome) → (pairs.map Prod.snd).sum = t8.rows.length) :=
  count_by_sum_present t8 "g" (by decide)

/-- C3: for every failing fetch, `load_data` catches the error, returns a
table with zero rows and zero columns, and emits exactly one user-visible
diagnostic; being a total function into `LoadOutcome`, it propagates
nothing past the loader boundary. -/
theorem load_error_contained (e : String) :
    (load_data (Except.error e)).table.cols.length = 0 ∧
    (load_data (Except.error e)).table.rows.length = 0 ∧
    (load_data (Except.error e)).errors =
      ["An error occurred while loading data: " ++ e] :=
  ⟨rfl, rfl, rfl⟩

/-- C4: whenever the loaded table is empty, the dashboard body renders
zero charts and emits exactly one cannot-proceed warning. -/
theorem display_empty_guard (t : Table) (h : t.empty = true) :
    display t = Except.ok [Event.warning loadFailedWarning, Event.info sidebarInfo] ∧
    ∀ evs, display t = Except.ok evs →
      (evs.filter Event.isFigure).length = 0 ∧
      (evs.filter Event.isWarning).length = 1 := by
  have hd : display t =
      Except.ok [Event.warning loadFailedWarning, Event.info sidebarInfo] := by
    unfold display
    rw [if_pos h]
  refine ⟨hd, ?_⟩
  intro evs hevs
  rw [hd] at hevs
  cases hevs
  exact ⟨rfl, rfl⟩

/-- Witness for C4 at the empty table. -/
theorem display_empty_guard_witness :
    display { cols := [], rows := [] } =
      Except.ok [Event.warning loadFailedWarning, Event.info sidebarInfo] ∧
    ∀ evs, display { cols := [], rows := [] } = Except.ok evs →
      (evs.filter Event.isFigure).length = 0 ∧
      (evs.filter Event.isWarning).length = 1 :=
  display_empty_guard { cols := [], rows := [] } rfl

/-- C5: for every non-empty table missing a configured chart column, each
chart kind fails with the error naming the missing column instead of
producing a chart event. -/
theorem missing_column_reported (t : Table) (c title : String)
    (hne : t.empty = false) (hc : c ∉ t.cols) :
    chartBar t c title = Except.error (keyError c) ∧
    chartPie t c title = Except.error (keyError c) ∧
    chartHistogram t c title = Except.error (keyError c) ∧
    ∃ s, keyError c = s ++ c := by
  have hcol : t.col c = Except.error (keyError c) := by
    unfold Table.col
    rw [if_neg hc]
  refine ⟨?_, ?_, ?_, ⟨"KeyError: ", rfl⟩⟩
  · unfold chartBar count_by
    rw [hcol]
    rfl
  · unfold chartPie count_by
    rw [hcol]
    rfl
  · unfold chartHistogram
    rw [hcol]
    rfl

/-- Witness for C5 at a table lacking the `Arts Program` column. -/
theorem missing_column_reported_witness :
    chartBar tNoProgram "Arts Program" "Distribution of Arts Programs" =
      Except.error (keyError "Arts Program") ∧
    chartPie tNoProgram "Arts Program" "Distribution of Arts Programs" =
      Except.error (keyError "Arts Program") ∧
    chartHistogram tNoProgram "Arts Program" "Distribution of Arts Programs" =
      Except.error (keyError "Arts Program") ∧
    ∃ s, keyError "Arts Program" = s ++ "Arts Program" :=
  missing_column_reported tNoProgram "Arts Program" "Distribution of Arts Programs"
    rfl (by decide)

/-- C6: `count_by` is deterministic and idempotent — two invocations on
the same table and column return the same pairs, in particular the same
multiset of (value, count) pairs. -/
theorem count_by_deterministic (t : Table) (c : String)
    (pairs₁ pairs₂ : List (String × Nat))
    (h₁ : count_by t c = Except.ok pairs₁) (h₂ : count_by t c = Except.ok pairs₂) :
    (pairs₁ : Multiset (String × Nat)) = (pairs₂ : Multiset (String × Nat)) ∧
    pairs₁ = pairs₂ := by
  rw [h₁] at h₂
  injection h₂ with h
  subst h
  exact ⟨rfl, rfl⟩

/-- Witness for C6 at the concrete three-row table. -/
theorem count_by_deterministic_witness :
    (([("F", 2), ("M", 1)] : List (String × Nat)) : Multiset (String × Nat)) =
      (([("F", 2), ("M", 1)] : List (String × Nat)) : Multiset (String × Nat)) ∧
    ([("F", 2), ("M", 1)] : List (String × Nat)) = [("F", 2), ("M", 1)] :=
  count_by_deterministic t8 "g" [("F", 2), ("M", 1)] [("F", 2), ("M", 1)] rfl rfl

/-- C7: loading the same URL twice within one session yields value-equal
tables — the second `st.cache_data`-wrapped call returns a table equal to
the first one. -/
theorem cachedLoad_roundtrip (s : Session) (url : String) :
    (cachedLoad (cachedLoad s url).2 url).1 = (cachedLoad s url).1 := by
  cases h : s.cache.lookup url with
  | some t => simp [cachedLoad, h]
  | none => simp [cachedLoad, h, List.lookup]

/-- C8: on the table with rows g = F, F, M, `count_by` at column `g`
returns exactly the pairs (F, 2) and (M, 1), whose multiset is the
claimed one. -/
theorem count_by_small_example :
    count_by t8 "g" = Except.ok [("F", 2), ("M", 1)] ∧
    (([("F", 2), ("M", 1)] : List (String × Nat)) : Multiset (String × Nat)) =
      {("F", 2), ("M", 1)} :=
  ⟨rfl, rfl⟩

/-- C9: rendering is pure presentation — a bar or pie render step leaves
the source table and the (value, count) pairs of the state unchanged and
only appends the constructed figure to the outputs. -/
theorem render_pure (s : AppState) (title : String) :
    (render_bar s title).table = s.table ∧
    (render_bar s title).pairs = s.pairs ∧
    (render_pie s title).table = s.table ∧
    (render_pie s title).pairs = s.pairs ∧
    (render_bar s title).outputs = s.outputs ++ [Event.figure (px_bar s.pairs title)] ∧
    (render_pie s title).outputs = s.outputs ++ [Event.figure (px_pie s.pairs title)] :=
  ⟨rfl, rfl, rfl, rfl, rfl, rfl⟩

/-- C10: the pairs produced by `count_by` are sorted in non-increasing
order of count, so every count is bounded by the count of the first
pair. -/
theorem count_by_sorted_desc (t : Table) (c : String)
    (pairs : List (String × Nat)) (h : count_by t c = Except.ok pairs) :
    pairs.Pairwise (fun a b => b.2 ≤ a.2) ∧
    ∀ p ∈ pairs, p.2 ≤ (pairs.headD ("", 0)).2 := by
  unfold count_by at h
  cases hcol : t.col c with
  | error e =>
      rw [hcol] at h
      simp [Except.map] at h
  | ok cells =>
      rw [hcol] at h
      have hp : value_counts cells = pairs := by
        simpa [Except.map] using h
      subst hp
      exact ⟨sortDesc_pairwise _, pairwise_head_max (sortDesc_pairwise _)⟩

/-- Witness for C10 at the concrete three-row table. -/
theorem count_by_sorted_desc_witness :
    ([("F", 2), ("M", 1)] : List (String × Nat)).Pairwise (fun a b => b.2 ≤ a.2) ∧
    ∀ p ∈ ([("F", 2), ("M", 1)] : List (String × Nat)),
      p.2 ≤ (([("F", 2), ("M", 1)] : List (String × Nat)).headD ("", 0)).2 :=
  count_by_sorted_desc t8 "g" [("F", 2), ("M", 1)] rfl
